import Mathlib

/-!
Verification of the ESP32 one-touch flashing tool (`flasher/flash_esp32.py`).

The script is shallowly embedded: every external effect (subprocess
invocation, filesystem existence test, firmware download, serial-port
discovery) is supplied by an `Env` record of oracles, and each embedded
function returns, besides its value, the trace of commands it would have
spawned and the messages it would have printed.  A subprocess oracle
returning `none` models the invocation raising an OS exception (in the
source, `subprocess.run` raising); returning `some r` models a completed
process with exit status `r.returncode` and captured output.
-/

/-- Result of a completed subprocess, as captured by
`subprocess.run(..., capture_output=True, text=True)`. -/
structure ProcResult where
  returncode : Int
  stdout : String
  stderr : String
deriving DecidableEq, Repr

/-- A line printed to the user, tagged by which print helper emitted it
(`print_info`, `print_error`, `print_success`, `print_warning`, bare
`print`). -/
inductive Msg where
  | info (s : String)
  | error (s : String)
  | success (s : String)
  | warning (s : String)
  | plain (s : String)
deriving DecidableEq, Repr

/-- The value returned by `find_esptool`: either a path/command-name string
or the list form `[sys.executable, "-m", "esptool"]`. -/
inductive ToolInvocation where
  | path (p : String)
  | module (cmd : List String)
deriving DecidableEq, Repr

/-- Per-port result of the flashing loop in `main`. -/
inductive FlashOutcome where
  | Success
  | EraseFailed
  | WriteFailed
deriving DecidableEq, Repr

/-- Oracles standing for the host system: `runner` answers every
`subprocess.run` call (`none` = the call raised), `fileExists` answers
`os.path.exists`, `isAbs` answers `os.path.isabs`, `discoveredPorts` is the
result of `find_esp32_ports()`, and `downloadResult` answers
`urllib.request.urlretrieve(url, output_path)` (`Except.error e` = the
retrieval raised exception text `e`). -/
structure Env where
  isWindows : Bool
  sysExecutable : String
  runner : List String → Option ProcResult
  fileExists : String → Bool
  isAbs : String → Bool
  scriptDir : String
  tempDir : String
  discoveredPorts : List String
  downloadResult : String → String → Except String Unit

/-- The parsed command-line arguments of `main` (post-`argparse`). -/
structure Args where
  port : Option String
  bootloader : String
  partitions : String
  firmware : String
  baud : Int
  no_erase : Bool
  keep_firmware : Bool

/-- ASCII whitespace as removed by Python `str.strip()` (the strings the
script strips only ever carry these). -/
def py_ws (c : Char) : Bool :=
  c = ' ' || c = '\t' || c = '\n' || c = '\r' || c = '\x0b' || c = '\x0c'

/-- Drop leading whitespace characters. -/
def drop_ws : List Char → List Char
  | [] => []
  | c :: rest => if py_ws c then drop_ws rest else c :: rest

/-- Python `s.strip()`: remove leading and trailing whitespace. -/
def py_strip (s : String) : String :=
  String.mk ((drop_ws ((drop_ws s.data).reverse)).reverse)

/-- Characters before the first occurrence of `sep`. -/
def take_until (sep : Char) : List Char → List Char
  | [] => []
  | c :: rest => if c = sep then [] else c :: take_until sep rest

/-- Python `s.split(sep)[0]` for a one-character separator. -/
def py_split_head (s : String) (sep : Char) : String :=
  String.mk (take_until sep s.data)

/-- Python `s.split(sep)[-1]` for a one-character separator. -/
def py_split_last (s : String) (sep : Char) : String :=
  String.mk ((take_until sep s.data.reverse).reverse)

/-- Python `c in s` for a single character. -/
def py_contains (s : String) (c : Char) : Bool :=
  s.data.contains c

/-- Whether the first character list starts with the second. -/
def chars_startswith : List Char → List Char → Bool
  | _, [] => true
  | [], _ :: _ => false
  | c :: cs, p :: ps => c == p && chars_startswith cs ps

/-- Python `s.startswith(pre)`. -/
def py_startswith (s pre : String) : Bool :=
  chars_startswith s.data pre.data

/-- Fuel-bounded engine of `py_replace`; one unit of fuel per step, each
step consuming at least one input character, so `s.length` fuel is always
enough. -/
def replace_chars (old new : List Char) : Nat → List Char → List Char
  | 0, s => s
  | _ + 1, [] => []
  | fuel + 1, c :: rest =>
    if chars_startswith (c :: rest) old && !old.isEmpty then
      new ++ replace_chars old new fuel ((c :: rest).drop old.length)
    else c :: replace_chars old new fuel rest

/-- Python `s.replace(old, new)` for non-empty `old`: replace
non-overlapping occurrences left to right. -/
def py_replace (s old new : String) : String :=
  String.mk (replace_chars old.data new.data s.data.length s.data)

/-- The `which`/`where` lookup command tried first by `find_esptool`. -/
def whichCmd (isWindows : Bool) : List String :=
  [if isWindows then "where" else "which", "esptool.py"]

/-- The interpreter-derived filesystem guess in `possible_paths`:
`sys.executable.replace("python.exe", "Scripts/esptool.exe").replace("python", "bin/esptool")`. -/
def esptool_guess (sysExecutable : String) : String :=
  py_replace (py_replace sysExecutable "python.exe" "Scripts/esptool.exe") "python" "bin/esptool"

/-- The `possible_paths` list of `find_esptool`. -/
def possible_paths (sysExecutable : String) : List String :=
  ["esptool.py", "esptool", esptool_guess sysExecutable]

/-- The run-as-module probe command `[sys.executable, "-m", "esptool", "version"]`. -/
def moduleCmd (sysExecutable : String) : List String :=
  [sysExecutable, "-m", "esptool", "version"]

/-- The `for path in possible_paths` probe loop of `find_esptool`: runs
`[path, "version"]` for each candidate, returning the first whose probe
exits zero, together with the trace of probe commands attempted. -/
def probe_paths (runner : List String → Option ProcResult) :
    List String → List (List String) × Option String
  | [] => ([], none)
  | p :: rest =>
    match runner [p, "version"] with
    | some r =>
      if r.returncode = 0 then ([[p, "version"]], some p)
      else ([p, "version"] :: (probe_paths runner rest).1, (probe_paths runner rest).2)
    | none => ([p, "version"] :: (probe_paths runner rest).1, (probe_paths runner rest).2)

/-- The part of `find_esptool` after the `which`/`where` attempt failed:
the `possible_paths` probe loop, then the run-as-module attempt.  `wcmd` is
the already-attempted lookup command, kept at the head of the trace. -/
def find_esptool_rest (env : Env) (wcmd : List String) :
    List (List String) × Option ToolInvocation :=
  match (probe_paths env.runner (possible_paths env.sysExecutable)).2 with
  | some p =>
    (wcmd :: (probe_paths env.runner (possible_paths env.sysExecutable)).1,
     some (ToolInvocation.path p))
  | none =>
    match env.runner (moduleCmd env.sysExecutable) with
    | some r =>
      if r.returncode = 0 then
        (wcmd :: (probe_paths env.runner (possible_paths env.sysExecutable)).1
           ++ [moduleCmd env.sysExecutable],
         some (ToolInvocation.module [env.sysExecutable, "-m", "esptool"]))
      else
        (wcmd :: (probe_paths env.runner (possible_paths env.sysExecutable)).1
           ++ [moduleCmd env.sysExecutable], none)
    | none =>
      (wcmd :: (probe_paths env.runner (possible_paths env.sysExecutable)).1
         ++ [moduleCmd env.sysExecutable], none)

/-- `find_esptool()`: first the `which`/`where` lookup (accepted when the
lookup itself exits zero, taking the first line of its stripped stdout),
then the `possible_paths` probes, then the run-as-module form.  Returns the
trace of subprocess commands attempted and the located invocation, `none`
when every strategy failed. -/
def find_esptool (env : Env) : List (List String) × Option ToolInvocation :=
  match env.runner (whichCmd env.isWindows) with
  | some r =>
    if r.returncode = 0 then
      ([whichCmd env.isWindows],
       some (ToolInvocation.path (py_split_head (py_strip r.stdout) '\n')))
    else find_esptool_rest env (whichCmd env.isWindows)
  | none => find_esptool_rest env (whichCmd env.isWindows)

/-- Whether `env.runner cmd` completes with exit status zero (the success
test applied to each locator strategy). -/
def cmd_ok (env : Env) (cmd : List String) : Bool :=
  match env.runner cmd with
  | some r => r.returncode == 0
  | none => false

/-- First line of the stripped stdout of the `which`/`where` lookup,
`result.stdout.strip().split("\n")[0]`. -/
def which_first_line (env : Env) : String :=
  match env.runner (whichCmd env.isWindows) with
  | some r => py_split_head (py_strip r.stdout) '\n'
  | none => ""

/-- Modelled from the spec: a locator following the specification's stated
strategy order — a bare command name on the search path first, then the
OS-specific which/where lookup, then the fallback filesystem guess, then
the run-as-module form — for comparison with the source's `find_esptool`. -/
def spec_order_locate (env : Env) : Option ToolInvocation :=
  match (["esptool.py", "esptool"].find? (fun p => cmd_ok env [p, "version"])) with
  | some p => some (ToolInvocation.path p)
  | none =>
    if cmd_ok env (whichCmd env.isWindows) then
      some (ToolInvocation.path (which_first_line env))
    else
      match ([esptool_guess env.sysExecutable].find? (fun p => cmd_ok env [p, "version"])) with
      | some p => some (ToolInvocation.path p)
      | none =>
        if cmd_ok env (moduleCmd env.sysExecutable) then
          some (ToolInvocation.module [env.sysExecutable, "-m", "esptool"])
        else none

/-- The command-list prefix contributed by the located tool in
`run_esptool` (`cmd = esptool_path + ...` when a list, `[esptool_path] + ...`
when a string). -/
def toolCmd : ToolInvocation → List String
  | ToolInvocation.path p => [p]
  | ToolInvocation.module l => l

/-- The argv built by `run_esptool`: tool, `--chip esp32 --port <port>`,
`--baud <baud>` when `baud` is truthy (present and nonzero, Python
`if baud:`), then the command and its arguments. -/
def build_cmd (tool : ToolInvocation) (port command : String) (args : List String)
    (baud : Option Int) : List String :=
  toolCmd tool ++ ["--chip", "esp32", "--port", port]
    ++ (match baud with
        | some b => if b = 0 then [] else ["--baud", toString b]
        | none => [])
    ++ [command] ++ args

/-- The argv of `erase_flash` (no baud argument is passed). -/
def erase_cmd (tool : ToolInvocation) (port : String) : List String :=
  build_cmd tool port "erase_flash" [] none

/-- The three fixed (offset, file) pairs of `write_flash`. -/
def write_args (bl pt fw : String) : List String :=
  ["0x1000", bl, "0x8000", pt, "0x10000", fw]

/-- The argv of `write_flash` at the given baud rate. -/
def write_cmd (tool : ToolInvocation) (port bl pt fw : String) (baud : Int) : List String :=
  build_cmd tool port "write_flash" (write_args bl pt fw) (some baud)

/-- The result-dependent tail of `run_esptool`: on non-zero exit print the
captured stderr via `print_error` and return `False`; on success print the
captured stdout (when non-empty) and return `True`. -/
def run_esptool (r : ProcResult) : Bool × List Msg :=
  if r.returncode ≠ 0 then (false, [Msg.error ("실행 실패:\n" ++ r.stderr)])
  else if r.stdout ≠ "" then (true, [Msg.plain r.stdout])
  else (true, [])

/-- The temporary output path computed by `download_firmware` when no
output path is given: the URL's last `/`-segment, query string stripped,
joined under the temporary directory. -/
def derive_download_path (tempDir url : String) : String :=
  let filename := py_split_last url '/'
  let filename := if py_contains filename '?' then py_split_head filename '?' else filename
  tempDir ++ "/" ++ filename

/-- `download_firmware(url)`: derive the output path, attempt the
retrieval, and return the saved path (`none` on failure) together with the
messages printed. -/
def download_firmware (env : Env) (url : String) : Option String × List Msg :=
  let output_path := derive_download_path env.tempDir url
  match env.downloadResult url output_path with
  | Except.ok _ =>
    (some output_path,
     [Msg.info ("다운로드 중: " ++ url), Msg.info ("저장 위치: " ++ output_path),
      Msg.success ("다운로드 완료: " ++ output_path)])
  | Except.error e =>
    (none,
     [Msg.info ("다운로드 중: " ++ url), Msg.info ("저장 위치: " ++ output_path),
      Msg.error ("다운로드 실패: " ++ e)])

/-- Python truthiness of `args.port` (`if args.port:`): present and
non-empty. -/
def truthy_port : Option String → Bool
  | none => false
  | some p => p ≠ ""

/-- The target list resolved by `main`: the explicit `--port` when truthy,
otherwise the discovered ports, `none` when discovery yields nothing (the
`sys.exit(1)` branch). -/
def ports_of (env : Env) (a : Args) : Option (List String) :=
  if truthy_port a.port then some [a.port.getD ""]
  else if env.discoveredPorts.isEmpty then none
  else some env.discoveredPorts

/-- The firmware path resolved by `main`: downloaded when the argument is a
URL (`none` on download failure, the `sys.exit(1)` branch), otherwise the
argument itself unchanged. -/
def firmware_of (env : Env) (a : Args) : Option String :=
  if py_startswith a.firmware "http://" || py_startswith a.firmware "https://" then
    (download_firmware env a.firmware).1
  else some a.firmware

/-- Path resolution applied by `main` to `--bootloader` and `--partitions`
(but not to `--firmware`): absolute paths unchanged, relative paths joined
under the script's own directory (`script_dir / arg`). -/
def resolve_path (env : Env) (p : String) : String :=
  if env.isAbs p then p else env.scriptDir ++ "/" ++ p

/-- One iteration of the flashing loop of `main` for a single port:
optional erase (skipped under `--no-erase`; on erase failure the write is
skipped and the iteration ends with `EraseFailed`), then the write.
Returns the trace of flasher commands spawned and either the port's
outcome or `Except.error ()` when a `subprocess.run` raised (propagating
to the top-level handler). -/
def flash_port (env : Env) (tool : ToolInvocation) (a : Args) (bl pt fw : String)
    (port : String) : List (List String) × Except Unit FlashOutcome :=
  if a.no_erase then
    match env.runner (write_cmd tool port bl pt fw a.baud) with
    | none => ([write_cmd tool port bl pt fw a.baud], Except.error ())
    | some r =>
      ([write_cmd tool port bl pt fw a.baud],
       Except.ok (if (run_esptool r).1 then FlashOutcome.Success else FlashOutcome.WriteFailed))
  else
    match env.runner (erase_cmd tool port) with
    | none => ([erase_cmd tool port], Except.error ())
    | some r =>
      if (run_esptool r).1 then
        match env.runner (write_cmd tool port bl pt fw a.baud) with
        | none =>
          ([erase_cmd tool port, write_cmd tool port bl pt fw a.baud], Except.error ())
        | some r2 =>
          ([erase_cmd tool port, write_cmd tool port bl pt fw a.baud],
           Except.ok (if (run_esptool r2).1 then FlashOutcome.Success else FlashOutcome.WriteFailed))
      else ([erase_cmd tool port], Except.ok FlashOutcome.EraseFailed)

/-- The flashing loop of `main` over the whole target list: ports in input
order, one outcome per port, a raised exception aborting the remainder. -/
def flash_loop (env : Env) (tool : ToolInvocation) (a : Args) (bl pt fw : String) :
    List String → List (List String) × Except Unit (List FlashOutcome)
  | [] => ([], Except.ok [])
  | port :: rest =>
    match flash_port env tool a bl pt fw port with
    | (t, Except.error _) => (t, Except.error ())
    | (t, Except.ok o) =>
      match flash_loop env tool a bl pt fw rest with
      | (t2, Except.ok os) => (t ++ t2, Except.ok (o :: os))
      | (t2, Except.error _) => (t ++ t2, Except.error ())

/-- Observable result of one run of `main`: process exit code, every
subprocess command spawned (locator probes included), the paths whose
existence was tested, the flasher erase/write commands spawned, the
per-port outcomes, and the final `succeeded/total` summary (present exactly
when the flashing loop ran to completion). -/
structure MainResult where
  exitCode : Nat
  subprocs : List (List String)
  existsChecks : List String
  flasherCalls : List (List String)
  outcomes : List FlashOutcome
  summary : Option (Nat × Nat)

/-- `main` from the firmware-existence check on: the three file checks
(each missing file exits 1), then the flashing loop, then the summary. -/
def main_with_firmware (env : Env) (a : Args) (tool : ToolInvocation)
    (ltrace : List (List String)) (ports : List String) (fw : String) : MainResult :=
  if env.fileExists fw then
    if env.fileExists (resolve_path env a.bootloader) then
      if env.fileExists (resolve_path env a.partitions) then
        match (flash_loop env tool a (resolve_path env a.bootloader)
            (resolve_path env a.partitions) fw ports).2 with
        | Except.error _ =>
          ⟨1,
           ltrace ++ (flash_loop env tool a (resolve_path env a.bootloader)
             (resolve_path env a.partitions) fw ports).1,
           [fw, resolve_path env a.bootloader, resolve_path env a.partitions],
           (flash_loop env tool a (resolve_path env a.bootloader)
             (resolve_path env a.partitions) fw ports).1,
           [], none⟩
        | Except.ok outs =>
          ⟨0,
           ltrace ++ (flash_loop env tool a (resolve_path env a.bootloader)
             (resolve_path env a.partitions) fw ports).1,
           [fw, resolve_path env a.bootloader, resolve_path env a.partitions],
           (flash_loop env tool a (resolve_path env a.bootloader)
             (resolve_path env a.partitions) fw ports).1,
           outs, some (outs.count FlashOutcome.Success, ports.length)⟩
      else
        ⟨1, ltrace, [fw, resolve_path env a.bootloader, resolve_path env a.partitions],
         [], [], none⟩
    else ⟨1, ltrace, [fw, resolve_path env a.bootloader], [], [], none⟩
  else ⟨1, ltrace, [fw], [], [], none⟩

/-- `main` from firmware resolution on: URL download failure exits 1. -/
def main_with_ports (env : Env) (a : Args) (tool : ToolInvocation)
    (ltrace : List (List String)) (ports : List String) : MainResult :=
  match firmware_of env a with
  | none => ⟨1, ltrace, [], [], [], none⟩
  | some fw => main_with_firmware env a tool ltrace ports fw

/-- `main` from port resolution on: empty discovery with no explicit port
exits 1. -/
def main_with_tool (env : Env) (a : Args) (tool : ToolInvocation)
    (ltrace : List (List String)) : MainResult :=
  match ports_of env a with
  | none => ⟨1, ltrace, [], [], [], none⟩
  | some ports => main_with_ports env a tool ltrace ports

/-- The whole of `main`: locate the tool (exit 1 when not found), resolve
ports, resolve firmware, check files, run the flashing loop, report. -/
def main_run (env : Env) (a : Args) : MainResult :=
  match (find_esptool env).2 with
  | none => ⟨1, (find_esptool env).1, [], [], [], none⟩
  | some tool => main_with_tool env a tool (find_esptool env).1

/-- The disjunction of precondition failures and in-loop exceptions of
`main`: exactly the conditions under which the process exits 1. -/
def C4fail (env : Env) (a : Args) : Prop :=
  (find_esptool env).2 = none
  ∨ ports_of env a = none
  ∨ firmware_of env a = none
  ∨ (∃ fw, firmware_of env a = some fw ∧ env.fileExists fw = false)
  ∨ env.fileExists (resolve_path env a.bootloader) = false
  ∨ env.fileExists (resolve_path env a.partitions) = false
  ∨ (∃ tool ports fw, (find_esptool env).2 = some tool ∧ ports_of env a = some ports
      ∧ firmware_of env a = some fw
      ∧ (flash_loop env tool a (resolve_path env a.bootloader)
          (resolve_path env a.partitions) fw ports).2 = Except.error ())

/-- A located tool used in concrete instances. -/
def toolW : ToolInvocation := ToolInvocation.path "esptool.py"

/-- Concrete arguments: explicit port, local files, default baud. -/
def argsW : Args :=
  { port := some "p1", bootloader := "b", partitions := "t", firmware := "f",
    baud := 460800, no_erase := false, keep_firmware := false }

/-- Concrete arguments with no explicit port. -/
def argsNoPort : Args :=
  { port := none, bootloader := "b", partitions := "t", firmware := "f",
    baud := 460800, no_erase := false, keep_firmware := false }

/-- Concrete arguments with a remote firmware URL. -/
def argsUrl : Args :=
  { port := some "p1", bootloader := "b", partitions := "t",
    firmware := "http://h/fw.bin?v=1",
    baud := 460800, no_erase := false, keep_firmware := false }

/-- Concrete arguments with a relative bootloader and an absolute
partition-table path. -/
def argsLocal : Args :=
  { port := some "p1", bootloader := "b", partitions := "/abs/t", firmware := "fw.bin",
    baud := 460800, no_erase := false, keep_firmware := false }

/-- A host on which every subprocess succeeds, every file exists, and
downloads succeed. -/
def envOk : Env :=
  { isWindows := false, sysExecutable := "py",
    runner := fun _ => some ⟨0, "ok", ""⟩,
    fileExists := fun _ => true,
    isAbs := fun s => py_startswith s "/",
    scriptDir := "/sd", tempDir := "/tmp",
    discoveredPorts := ["/dev/ttyUSB0"],
    downloadResult := fun _ _ => Except.ok () }

/-- A host on which every erase invocation exits 1 and everything else
succeeds. -/
def envEraseFail : Env :=
  { isWindows := false, sysExecutable := "py",
    runner := fun cmd =>
      if cmd.contains "erase_flash" then some ⟨1, "", "boom"⟩ else some ⟨0, "", ""⟩,
    fileExists := fun _ => true,
    isAbs := fun s => py_startswith s "/",
    scriptDir := "/sd", tempDir := "/tmp",
    discoveredPorts := ["/dev/ttyUSB0"],
    downloadResult := fun _ _ => Except.ok () }

/-- A host on which the `which` lookup succeeds but port discovery finds
nothing; only the lookup is answered, all other subprocess calls raise. -/
def envNoPorts : Env :=
  { isWindows := false, sysExecutable := "py",
    runner := fun cmd =>
      if cmd = ["which", "esptool.py"] then some ⟨0, "/usr/bin/esptool.py\n", ""⟩ else none,
    fileExists := fun _ => true,
    isAbs := fun s => py_startswith s "/",
    scriptDir := "/sd", tempDir := "/tmp",
    discoveredPorts := [],
    downloadResult := fun _ _ => Except.ok () }

/-- A host on which both the `which` lookup and the bare `esptool.py`
version probe would succeed, distinguishing the two strategy orders. -/
def envWhichBare : Env :=
  { isWindows := false, sysExecutable := "py",
    runner := fun cmd =>
      if cmd = ["which", "esptool.py"] then some ⟨0, "/w/esptool.py\n", ""⟩
      else if cmd = ["esptool.py", "version"] then some ⟨0, "", ""⟩
      else none,
    fileExists := fun _ => true,
    isAbs := fun s => py_startswith s "/",
    scriptDir := "/sd", tempDir := "/tmp",
    discoveredPorts := ["/dev/ttyUSB0"],
    downloadResult := fun _ _ => Except.ok () }

/-- A host on which every download attempt raises (e.g. an HTTP 404). -/
def envDownloadFail : Env :=
  { isWindows := false, sysExecutable := "py",
    runner := fun _ => some ⟨0, "ok", ""⟩,
    fileExists := fun _ => true,
    isAbs := fun s => py_startswith s "/",
    scriptDir := "/sd", tempDir := "/tmp",
    discoveredPorts := ["/dev/ttyUSB0"],
    downloadResult := fun _ _ => Except.error "HTTP Error 404: Not Found" }

/-- C1: over any completed run of the flashing loop, each target yields
exactly one outcome (the outcome list is in bijection with the target
list), the summary total equals the number of targets, and the success
count is between 0 and the total. -/
theorem c1_flash_loop_summary (env : Env) (tool : ToolInvocation) (a : Args)
    (bl pt fw : String) (ports : List String) (outs : List FlashOutcome)
    (h : (flash_loop env tool a bl pt fw ports).2 = Except.ok outs) :
    outs.length = ports.length ∧ outs.count FlashOutcome.Success ≤ ports.length := by
  induction ports generalizing outs with
  | nil =>
    simp [flash_loop] at h
    subst h
    simp
  | cons p ps ih =>
    rcases hp : flash_port env tool a bl pt fw p with ⟨t, r⟩
    cases r with
    | error u => simp [flash_loop, hp] at h
    | ok o =>
      rcases hr : flash_loop env tool a bl pt fw ps with ⟨t2, r2⟩
      cases r2 with
      | error u => simp [flash_loop, hp, hr] at h
      | ok os =>
        simp [flash_loop, hp, hr] at h
        subst h
        have hih := ih os (by rw [hr])
        refine ⟨by simp [hih.1], ?_⟩
        have h2 := hih.2
        simp [List.count_cons]
        split <;> omega

/-- C1 witness: a two-port run in which both targets succeed. -/
theorem c1_flash_loop_summary_witness :
    ([FlashOutcome.Success, FlashOutcome.Success] : List FlashOutcome).length
        = (["p1", "p2"] : List String).length
      ∧ ([FlashOutcome.Success, FlashOutcome.Success] : List FlashOutcome).count
          FlashOutcome.Success ≤ (["p1", "p2"] : List String).length :=
  c1_flash_loop_summary envOk toolW argsW "b" "t" "f" ["p1", "p2"]
    [FlashOutcome.Success, FlashOutcome.Success] rfl

/-- C2: when erase is requested and the erase invocation exits non-zero,
the port's single outcome is EraseFailed, the write command is never
spawned for it, and the loop continues with the remaining targets. -/
theorem c2_erase_failure_skips_write (env : Env) (tool : ToolInvocation) (a : Args)
    (bl pt fw port : String) (rest : List String) (r : ProcResult)
    (hE : a.no_erase = false)
    (hR : env.runner (erase_cmd tool port) = some r)
    (hRC : r.returncode ≠ 0) :
    flash_port env tool a bl pt fw port
        = ([erase_cmd tool port], Except.ok FlashOutcome.EraseFailed)
      ∧ write_cmd tool port bl pt fw a.baud ∉ (flash_port env tool a bl pt fw port).1
      ∧ (flash_loop env tool a bl pt fw (port :: rest)).1
          = erase_cmd tool port :: (flash_loop env tool a bl pt fw rest).1
      ∧ (flash_loop env tool a bl pt fw (port :: rest)).2
          = Except.map (fun os => FlashOutcome.EraseFailed :: os)
              (flash_loop env tool a bl pt fw rest).2 := by
  have hfp : flash_port env tool a bl pt fw port
      = ([erase_cmd tool port], Except.ok FlashOutcome.EraseFailed) := by
    simp [flash_port, hE, hR, run_esptool, hRC]
  have hne : write_cmd tool port bl pt fw a.baud ≠ erase_cmd tool port := by
    intro h
    have hl := congrArg List.length h
    by_cases hb : a.baud = 0 <;>
      simp [write_cmd, erase_cmd, build_cmd, write_args, hb] at hl
  have hloop : (flash_loop env tool a bl pt fw (port :: rest)).1
        = erase_cmd tool port :: (flash_loop env tool a bl pt fw rest).1
      ∧ (flash_loop env tool a bl pt fw (port :: rest)).2
        = Except.map (fun os => FlashOutcome.EraseFailed :: os)
            (flash_loop env tool a bl pt fw rest).2 := by
    rcases hr : flash_loop env tool a bl pt fw rest with ⟨t2, r2⟩
    cases r2 <;> simp [flash_loop, hfp, hr, Except.map]
  exact ⟨hfp, by rw [hfp]; simp [hne], hloop.1, hloop.2⟩

/-- C2 witness: a host whose erase invocations exit 1, with one further
target after the failing one. -/
theorem c2_erase_failure_skips_write_witness :
    (flash_port envEraseFail toolW argsW "b" "t" "f" "p1").2
      = Except.ok FlashOutcome.EraseFailed := by
  have h := c2_erase_failure_skips_write envEraseFail toolW argsW "b" "t" "f" "p1" ["p2"]
    ⟨1, "", "boom"⟩ rfl rfl (by decide)
  rw [h.1]

/-- C3: the flashing loop processes the targets exactly in input-list
order, each target independently; a per-target failure is an ordinary
outcome and never cuts the loop short (the loop is the monadic map of the
single-port step over the list). -/
theorem c3_loop_order_preserved (env : Env) (tool : ToolInvocation) (a : Args)
    (bl pt fw : String) (ports : List String) :
    (flash_loop env tool a bl pt fw ports).2
      = ports.mapM (fun port => (flash_port env tool a bl pt fw port).2) := by
  induction ports with
  | nil => rfl
  | cons p ps ih =>
    rw [List.mapM_cons, ← ih]
    rcases hp : flash_port env tool a bl pt fw p with ⟨t, r⟩
    cases r with
    | error u =>
      cases u
      simp [flash_loop, hp, Bind.bind, Except.bind]
    | ok o =>
      rcases hr : flash_loop env tool a bl pt fw ps with ⟨t2, r2⟩
      cases r2 with
      | error u =>
        cases u
        simp [flash_loop, hp, hr, Bind.bind, Except.bind]
      | ok os =>
        simp [flash_loop, hp, hr, Bind.bind, Except.bind, Pure.pure, Except.pure]

/-- C5 counterexample: with a configured baud of 0 (Python `if baud:` is
false) the write invocation carries no `--baud` argument at all, so the
configured rate is not passed; with the default 460800 it is. -/
theorem c5_zero_baud_counterexample :
    "--baud" ∉ write_cmd toolW "p1" "b" "t" "f" 0
      ∧ "--baud" ∈ write_cmd toolW "p1" "b" "t" "f" 460800 := by decide

/-- C5 (amended): every write invocation supplies exactly the three
(offset, file) pairs 0x1000 -> bootloader, 0x8000 -> partition table,
0x10000 -> application image, the offsets fixed literals independent of
every input; the configured baud rate is passed via `--baud` exactly when
it is nonzero (a zero rate is treated as unset and the flag omitted). -/
theorem c5_write_cmd_fixed_offsets (tool : ToolInvocation) (port bl pt fw : String)
    (baud : Int) :
    write_cmd tool port bl pt fw baud =
      toolCmd tool ++ ["--chip", "esp32", "--port", port]
        ++ (if baud = 0 then [] else ["--baud", toString baud])
        ++ ["write_flash", "0x1000", bl, "0x8000", pt, "0x10000", fw] := by
  by_cases h : baud = 0 <;> simp [write_cmd, build_cmd, write_args, h]

/-- C9 counterexample: a failing invocation with non-empty captured stdout
surfaces only the stderr text; the stdout is not surfaced, contradicting
"standard output is surfaced regardless of outcome". -/
theorem c9_stdout_not_surfaced_on_failure :
    (run_esptool ⟨1, "out", "err"⟩).2 = [Msg.error "실행 실패:\nerr"]
      ∧ Msg.plain "out" ∉ (run_esptool ⟨1, "out", "err"⟩).2 := by decide

/-- C9 (amended): an invocation's captured stderr is surfaced exactly when
it exits non-zero, and its captured stdout is surfaced exactly when it
exits zero and the stdout is non-empty. -/
theorem c9_output_surfacing (r : ProcResult) :
    (Msg.error ("실행 실패:\n" ++ r.stderr) ∈ (run_esptool r).2 ↔ r.returncode ≠ 0)
      ∧ (Msg.plain r.stdout ∈ (run_esptool r).2 ↔ r.returncode = 0 ∧ r.stdout ≠ "") := by
  by_cases h : r.returncode = 0 <;> by_cases h2 : r.stdout = "" <;>
    simp [run_esptool, h, h2]

/-- The probe loop finds exactly the first candidate whose `version`
invocation exits zero. -/
theorem probe_paths_eq_find (env : Env) (l : List String) :
    (probe_paths env.runner l).2 = l.find? (fun p => cmd_ok env [p, "version"]) := by
  induction l with
  | nil => rfl
  | cons p rest ih =>
    rcases h : env.runner [p, "version"] with _ | r
    · simp [probe_paths, h, cmd_ok, List.find?, ih]
    · by_cases hr : r.returncode = 0
      · simp [probe_paths, h, cmd_ok, hr, List.find?, ih]
      · have hrb : (r.returncode == 0) = false := by simp [hr]
        simp [probe_paths, h, cmd_ok, hr, hrb, List.find?, ih]

/-- The tail of the locator (after the lookup failed) returns the first
successful probe, else the module form, else nothing. -/
theorem find_esptool_rest_snd (env : Env) (wcmd : List String) :
    (find_esptool_rest env wcmd).2 =
      ((((possible_paths env.sysExecutable).find? (fun p => cmd_ok env [p, "version"])).map
          ToolInvocation.path)
        <|> (if cmd_ok env (moduleCmd env.sysExecutable) then
              some (ToolInvocation.module [env.sysExecutable, "-m", "esptool"])
            else none)) := by
  rw [← probe_paths_eq_find]
  unfold find_esptool_rest
  rcases h : (probe_paths env.runner (possible_paths env.sysExecutable)).2 with _ | p
  · rcases hm : env.runner (moduleCmd env.sysExecutable) with _ | r
    · simp [h, hm, cmd_ok]
    · by_cases hr : r.returncode = 0 <;> simp [h, hm, hr, cmd_ok]
  · simp [h]

/-- C6 counterexample: on a host where both the which/where lookup and the
bare `esptool.py` probe would succeed, the source's locator returns the
lookup's output path, while the specification's stated order (bare command
name first) would return the bare name — the strategies are not tried in
the claimed order. -/
theorem c6_strategy_order_counterexample :
    (find_esptool envWhichBare).2 = some (ToolInvocation.path "/w/esptool.py")
      ∧ spec_order_locate envWhichBare = some (ToolInvocation.path "esptool.py")
      ∧ (find_esptool envWhichBare).2 ≠ spec_order_locate envWhichBare := by decide

/-- C6 (amended): the locator first tries the OS-specific which/where
lookup (accepted when the lookup itself exits zero, returning the first
line of its stripped output), then the candidates `esptool.py`, `esptool`
and the interpreter-derived guess in order, each probed by a `version`
invocation, then the run-as-module form; the first success wins, and
NotFound is returned only when every strategy fails. -/
theorem c6_locator_characterization (env : Env) :
    ((find_esptool env).2 =
      if cmd_ok env (whichCmd env.isWindows) then
        some (ToolInvocation.path (which_first_line env))
      else
        ((((possible_paths env.sysExecutable).find? (fun p => cmd_ok env [p, "version"])).map
            ToolInvocation.path)
          <|> (if cmd_ok env (moduleCmd env.sysExecutable) then
                some (ToolInvocation.module [env.sysExecutable, "-m", "esptool"])
              else none)))
    ∧ ((find_esptool env).2 = none ↔
        cmd_ok env (whichCmd env.isWindows) = false
        ∧ (∀ p ∈ possible_paths env.sysExecutable, cmd_ok env [p, "version"] = false)
        ∧ cmd_ok env (moduleCmd env.sysExecutable) = false) := by
  have hrest := find_esptool_rest_snd env (whichCmd env.isWindows)
  have hmain : (find_esptool env).2 =
      if cmd_ok env (whichCmd env.isWindows) then
        some (ToolInvocation.path (which_first_line env))
      else
        ((((possible_paths env.sysExecutable).find? (fun p => cmd_ok env [p, "version"])).map
            ToolInvocation.path)
          <|> (if cmd_ok env (moduleCmd env.sysExecutable) then
                some (ToolInvocation.module [env.sysExecutable, "-m", "esptool"])
              else none)) := by
    rcases hw : env.runner (whichCmd env.isWindows) with _ | r
    · have hok : cmd_ok env (whichCmd env.isWindows) = false := by simp [cmd_ok, hw]
      simp [find_esptool, hw, hok, hrest]
    · by_cases hr : r.returncode = 0
      · have hok : cmd_ok env (whichCmd env.isWindows) = true := by simp [cmd_ok, hw, hr]
        simp [find_esptool, hw, hr, hok, which_first_line]
      · have hok : cmd_ok env (whichCmd env.isWindows) = false := by simp [cmd_ok, hw, hr]
        simp [find_esptool, hw, hr, hok, hrest]
  refine ⟨hmain, ?_⟩
  rw [hmain]
  constructor
  · intro hnone
    by_cases hok : cmd_ok env (whichCmd env.isWindows)
    · simp [hok] at hnone
    · rcases hf : (possible_paths env.sysExecutable).find? (fun p => cmd_ok env [p, "version"])
          with _ | p
      · by_cases hm : cmd_ok env (moduleCmd env.sysExecutable)
        · simp [hok, hf, hm] at hnone
        · refine ⟨by simpa using hok, ?_, by simpa using hm⟩
          intro q hq
          have := List.find?_eq_none.mp hf q hq
          simpa using this
      · simp [hok, hf] at hnone
  · rintro ⟨h1, h2, h3⟩
    have hf : (possible_paths env.sysExecutable).find? (fun p => cmd_ok env [p, "version"])
        = none :=
      List.find?_eq_none.mpr (fun q hq => by simp [h2 q hq])
    simp [h1, hf, h3]

/-- C7: when the firmware source is a remote URL whose retrieval fails, the
attempted URL and the underlying cause are both surfaced, the process exits
with code 1, and no erase or write invocation is ever spawned. -/
theorem c7_download_failure (env : Env) (a : Args) (e : String)
    (hU : (py_startswith a.firmware "http://" || py_startswith a.firmware "https://") = true)
    (hD : env.downloadResult a.firmware (derive_download_path env.tempDir a.firmware)
        = Except.error e) :
    Msg.info ("다운로드 중: " ++ a.firmware) ∈ (download_firmware env a.firmware).2
      ∧ Msg.error ("다운로드 실패: " ++ e) ∈ (download_firmware env a.firmware).2
      ∧ (main_run env a).exitCode = 1
      ∧ (main_run env a).flasherCalls = [] := by
  have hfw : firmware_of env a = none := by
    simp [firmware_of, hU, download_firmware, hD]
  have hmain : (main_run env a).exitCode = 1 ∧ (main_run env a).flasherCalls = [] := by
    rcases ht : (find_esptool env).2 with _ | tool
    · simp [main_run, ht]
    · rcases hp : ports_of env a with _ | ports
      · simp [main_run, ht, main_with_tool, hp]
      · simp [main_run, ht, main_with_tool, hp, main_with_ports, hfw]
  refine ⟨?_, ?_, hmain.1, hmain.2⟩
  · simp [download_firmware, hD]
  · simp [download_firmware, hD]

/-- C7 witness: a 404 on a URL firmware source. -/
theorem c7_download_failure_witness :
    Msg.info ("다운로드 중: " ++ argsUrl.firmware)
        ∈ (download_firmware envDownloadFail argsUrl.firmware).2
      ∧ Msg.error ("다운로드 실패: " ++ "HTTP Error 404: Not Found")
        ∈ (download_firmware envDownloadFail argsUrl.firmware).2
      ∧ (main_run envDownloadFail argsUrl).exitCode = 1
      ∧ (main_run envDownloadFail argsUrl).flasherCalls = [] :=
  c7_download_failure envDownloadFail argsUrl "HTTP Error 404: Not Found" (by decide) rfl

/-- C8 counterexample: with no explicit port and empty discovery the
process does exit 1, but a subprocess has already been spawned by the tool
locator (the which/where lookup), so "no subprocess is invoked during the
run" is false. -/
theorem c8_locator_subprocs_counterexample :
    (main_run envNoPorts argsNoPort).exitCode = 1
      ∧ (main_run envNoPorts argsNoPort).subprocs = [["which", "esptool.py"]]
      ∧ (main_run envNoPorts argsNoPort).subprocs ≠ [] := by decide

/-- C8 (amended): if no truthy `--port` is given and discovery returns no
ports, the process exits with code 1 and no flasher erase or write
invocation is spawned (the tool locator's probe subprocesses may already
have run). -/
theorem c8_no_ports_no_flasher (env : Env) (a : Args)
    (hp : truthy_port a.port = false) (hd : env.discoveredPorts = []) :
    (main_run env a).exitCode = 1 ∧ (main_run env a).flasherCalls = [] := by
  have hports : ports_of env a = none := by simp [ports_of, hp, hd]
  rcases ht : (find_esptool env).2 with _ | tool
  · simp [main_run, ht]
  · simp [main_run, ht, main_with_tool, hports]

/-- C8 witness: empty discovery with no explicit port. -/
theorem c8_no_ports_no_flasher_witness :
    (main_run envNoPorts argsNoPort).exitCode = 1
      ∧ (main_run envNoPorts argsNoPort).flasherCalls = [] :=
  c8_no_ports_no_flasher envNoPorts argsNoPort rfl rfl

/-- C10: when the run reaches the file checks with a local firmware
source, the existence checks are performed on the `--firmware` argument
exactly as given, but on the `--bootloader` and `--partitions` arguments
only after resolution: a relative path is joined under the script's own
directory, an absolute path is used unchanged. -/
theorem c10_path_resolution (env : Env) (a : Args) (tool : ToolInvocation)
    (ports : List String)
    (hT : (find_esptool env).2 = some tool)
    (hP : ports_of env a = some ports)
    (hU : (py_startswith a.firmware "http://" || py_startswith a.firmware "https://") = false)
    (hF : env.fileExists a.firmware = true)
    (hB : env.fileExists (resolve_path env a.bootloader) = true)
    (hPt : env.fileExists (resolve_path env a.partitions) = true) :
    (main_run env a).existsChecks
        = [a.firmware, resolve_path env a.bootloader, resolve_path env a.partitions]
      ∧ (env.isAbs a.bootloader = false →
          resolve_path env a.bootloader = env.scriptDir ++ "/" ++ a.bootloader)
      ∧ (env.isAbs a.bootloader = true → resolve_path env a.bootloader = a.bootloader)
      ∧ (env.isAbs a.partitions = false →
          resolve_path env a.partitions = env.scriptDir ++ "/" ++ a.partitions)
      ∧ (env.isAbs a.partitions = true → resolve_path env a.partitions = a.partitions) := by
  have hfw : firmware_of env a = some a.firmware := by simp [firmware_of, hU]
  refine ⟨?_, ?_, ?_, ?_, ?_⟩
  · have hrw : main_run env a
        = main_with_firmware env a tool (find_esptool env).1 ports a.firmware := by
      simp [main_run, hT, main_with_tool, hP, main_with_ports, hfw]
    rw [hrw]
    simp [main_with_firmware, hF, hB, hPt]
    try (split <;> rfl)
  · intro h; simp [resolve_path, h]
  · intro h; simp [resolve_path, h]
  · intro h; simp [resolve_path, h]
  · intro h; simp [resolve_path, h]

/-- C10 witness: relative bootloader "b" resolved under the script
directory "/sd", absolute partitions "/abs/t" unchanged, local firmware
"fw.bin" checked as given. -/
theorem c10_path_resolution_witness :
    (main_run envOk argsLocal).existsChecks = ["fw.bin", "/sd/b", "/abs/t"] := by
  have h := c10_path_resolution envOk argsLocal (ToolInvocation.path "ok") ["p1"]
    rfl rfl (by decide) rfl rfl rfl
  rw [h.1]
  decide

/-- C4: the process exit code is always 0 or 1; it is 1 exactly when a
precondition failed (tool not found, no ports, download failure, missing
firmware/bootloader/partition file) or a subprocess invocation raised
inside the flashing loop, and hence 0 exactly when the flashing loop ran
to completion — regardless of how many per-port outcomes were failures. -/
theorem c4_exit_codes (env : Env) (a : Args) :
    ((main_run env a).exitCode = 0 ∨ (main_run env a).exitCode = 1)
      ∧ ((main_run env a).exitCode = 1 ↔ C4fail env a) := by
  rcases hT : (find_esptool env).2 with _ | tool
  · refine ⟨Or.inr (by simp [main_run, hT]), ?_⟩
    simp [main_run, hT, C4fail]
  · rcases hP : ports_of env a with _ | ports
    · refine ⟨Or.inr (by simp [main_run, hT, main_with_tool, hP]), ?_⟩
      simp [main_run, hT, main_with_tool, hP, C4fail]
    · rcases hfw : firmware_of env a with _ | fw
      · refine ⟨Or.inr (by simp [main_run, hT, main_with_tool, hP, main_with_ports, hfw]), ?_⟩
        simp [main_run, hT, main_with_tool, hP, main_with_ports, hfw, C4fail]
      · cases hF : env.fileExists fw with
        | false =>
          refine ⟨Or.inr (by simp [main_run, hT, main_with_tool, hP, main_with_ports, hfw,
            main_with_firmware, hF]), ?_⟩
          simp [main_run, hT, main_with_tool, hP, main_with_ports, hfw,
            main_with_firmware, hF, C4fail]
        | true =>
          cases hB : env.fileExists (resolve_path env a.bootloader) with
          | false =>
            refine ⟨Or.inr (by simp [main_run, hT, main_with_tool, hP, main_with_ports, hfw,
              main_with_firmware, hF, hB]), ?_⟩
            simp [main_run, hT, main_with_tool, hP, main_with_ports, hfw,
              main_with_firmware, hF, hB, C4fail]
          | true =>
            cases hPt : env.fileExists (resolve_path env a.partitions) with
            | false =>
              refine ⟨Or.inr (by simp [main_run, hT, main_with_tool, hP, main_with_ports, hfw,
                main_with_firmware, hF, hB, hPt]), ?_⟩
              simp [main_run, hT, main_with_tool, hP, main_with_ports, hfw,
                main_with_firmware, hF, hB, hPt, C4fail]
            | true =>
              rcases hL : (flash_loop env tool a (resolve_path env a.bootloader)
                  (resolve_path env a.partitions) fw ports).2 with u | outs
              · cases u
                refine ⟨Or.inr (by simp [main_run, hT, main_with_tool, hP, main_with_ports, hfw,
                  main_with_firmware, hF, hB, hPt, hL]), ?_⟩
                simp [main_run, hT, main_with_tool, hP, main_with_ports, hfw,
                  main_with_firmware, hF, hB, hPt, hL, C4fail]
              · refine ⟨Or.inl (by simp [main_run, hT, main_with_tool, hP, main_with_ports, hfw,
                  main_with_firmware, hF, hB, hPt, hL]), ?_⟩
                simp [main_run, hT, main_with_tool, hP, main_with_ports, hfw,
                  main_with_firmware, hF, hB, hPt, hL, C4fail]
